import Mathlib

/-!
Verification of the learn-page view-state controller (`src/app/learn/page.tsx`)
and its server action wrappers (`app/actions.ts`).

The controller is embedded shallowly: the React component's state
(`courses`, `activeCourseId`, `generationState`) together with the
user-visible notification channel (toasts) and the diagnostic log become a
`Model` record, and every handler becomes a pure function from the current
model (plus the outcome of the external gateway calls it makes) to the next
model.  The two gateways (Firestore persistence, AI generation) are external
collaborators, so each call's outcome is a parameter of type `Except Thrown α`:
`.ok` for a resolved promise, `.error` for a rejected one.  A JavaScript
`throw` can carry an `Error` (with a message) or any other value, which the
page distinguishes with `instanceof Error`; `Thrown` mirrors that split.
-/

/-- A thrown JavaScript value: an `Error` carrying a message, or any
non-`Error` value (the page only ever inspects `instanceof Error` and
`.message`, so non-`Error` values need no further structure). -/
inductive Thrown where
  | err (msg : String)
  | nonError
deriving Repr, DecidableEq

/-- One step of a course (`Step` in `@/lib/types`; the types module is not
among the reviewed sources, so its fields are modelled from the spec's data
model: step number, title, content body, completion flag, and the three
optional enrichments — a textual fun fact, external links, a quiz payload).
Links and quiz are modelled with payload types whose JavaScript values are
objects/arrays, which are always truthy; the fun fact is text, whose
truthiness is non-emptiness. -/
structure Step where
  stepNumber : Nat
  title : String
  content : String
  completed : Bool
  funFact : Option String := none
  externalLinks : Option (List String) := none
  quiz : Option (List String) := none
deriving Repr, DecidableEq

/-- One entry of the generation gateway's result
(`{ step, title, description, content, funFact?, externalLinks?, quiz? }`
per the external-interface section of the spec). -/
structure OutlineStep where
  step : Nat
  title : String
  description : String
  content : String
  funFact : Option String := none
  externalLinks : Option (List String) := none
  quiz : Option (List String) := none
deriving Repr, DecidableEq

/-- The generation gateway's successful result shape `{ course: OutlineStep[] }`. -/
structure GenerateFullCourseOutput where
  course : List OutlineStep
deriving Repr, DecidableEq

/-- The question gateway's result shape `{ answer: string }`. -/
structure AskStepQuestionOutput where
  answer : String
deriving Repr, DecidableEq

/-- A stored course (`Course` in `@/lib/types`, as assembled by
`handleGenerateCourse`: id, topic, depth, serialized outline, steps,
creation timestamp, owning user).  The page stores the outline as
`JSON.stringify` of the `(step, title, description)` triples; the
serialization is modelled by the triple list itself. -/
structure Course where
  id : String
  topic : String
  depth : Nat
  outline : List (Nat × String × String)
  steps : List Step
  createdAt : String
  userId : String
deriving Repr, DecidableEq

/-- A toast notification (title plus description; every failure toast in the
page uses the destructive variant, which carries no extra information). -/
structure Toast where
  title : String
  description : String
deriving Repr, DecidableEq

/-- `GenerationState.status`: `'idle' | 'generating' | 'done'`. -/
inductive GStatus where
  | idle
  | generating
  | done
deriving Repr, DecidableEq

/-- `GenerationState = { status: ... }`. -/
structure GenerationState where
  status : GStatus
deriving Repr, DecidableEq

/-- The component's state, the toast channel and the console log, taken
together.  Toasts and logs are newest-first lists. -/
structure Model where
  courses : List Course
  activeCourseId : Option String
  generationState : GenerationState
  toasts : List Toast
  logs : List String
deriving Repr, DecidableEq

/-- Ambient context the handlers read: whether the component has mounted and
the authenticated user's uid (if any). -/
structure PageEnv where
  mounted : Bool
  user : Option String
deriving Repr, DecidableEq

/-- Push a toast (newest first). -/
def pushToast (t : Toast) (s : Model) : Model :=
  { s with toasts := t :: s.toasts }

/-- Push a console log entry (newest first). -/
def pushLog (l : String) (s : Model) : Model :=
  { s with logs := l :: s.logs }

/-- `error instanceof Error ? error.message : "An unknown error occurred."`
(the generic fallback of `handleGenerateCourse`). -/
def describeThrown : Thrown → String
  | .err m => m
  | .nonError => "An unknown error occurred."

/-! ## Server actions (`app/actions.ts`) -/

/-- The message `generateCourseAction` throws from inside its `try` block
when the gateway result has no steps. -/
def aiFailedMsg : String :=
  "The AI failed to generate a course for this topic. Please try a different topic."

/-- The message `generateCourseAction`'s `catch` block rethrows for every
failure it catches. -/
def aiUnableMsg : String :=
  "The AI was unable to generate a course for this topic. This can happen with very specific or sensitive subjects. Please try a broader or different topic."

/-- The body of `generateCourseAction`'s `try` block: await the gateway,
throw `aiFailedMsg` if the course list is missing or empty, otherwise return
the result. -/
def generateCourseActionTry (gw : Except Thrown GenerateFullCourseOutput) :
    Except Thrown GenerateFullCourseOutput :=
  match gw with
  | .error e => .error e
  | .ok r => if r.course.isEmpty then .error (.err aiFailedMsg) else .ok r

/-- `generateCourseAction`: the `try` body wrapped in a `catch` that replaces
every caught error — including the zero-steps error thrown inside the `try`
itself — with a new `Error` carrying `aiUnableMsg`. -/
def generateCourseAction (gw : Except Thrown GenerateFullCourseOutput) :
    Except Thrown GenerateFullCourseOutput :=
  match generateCourseActionTry gw with
  | .ok r => .ok r
  | .error _ => .error (.err aiUnableMsg)

/-- `askQuestionAction`: pass a success through; rethrow an `Error`'s message
as a new `Error`; replace a non-`Error` throw with a fixed message. -/
def askQuestionAction (gw : Except Thrown AskStepQuestionOutput) :
    Except Thrown AskStepQuestionOutput :=
  match gw with
  | .ok r => .ok r
  | .error (.err m) => .error (.err m)
  | .error .nonError =>
      .error (.err "An unknown error occurred while getting the answer.")

/-! ## View-state controller (`src/app/learn/page.tsx`) -/

/-- `fetchCourses`: when a user is present and the component is mounted,
replace the collection with the gateway's list; on gateway error log it and
toast, leaving the collection untouched. -/
def fetchCourses (env : PageEnv) (s : Model)
    (gw : Except Thrown (List Course)) : Model :=
  if env.user.isSome && env.mounted then
    match gw with
    | .ok userCourses => { s with courses := userCourses }
    | .error _ =>
        pushToast ⟨"Error", "Failed to load courses. Please refresh the page."⟩
          (pushLog "Error fetching courses:" s)
  else s

/-- `activeCourse`: `courses.find(c => c.id === activeCourseId) || null`.
A `null` active id matches no course id (a string is never `===` `null`),
and `undefined`/`null` both land in `none`. -/
def activeCourse (courses : List Course) (activeCourseId : Option String) :
    Option Course :=
  courses.find? (fun c => some c.id == activeCourseId)

/-- The per-entry transformation of `handleGenerateCourse` (lines 80—99):
build a `Step` with `completed = false`, then attach each optional field
only when the source field is truthy — for the textual fun fact that means
present and non-empty; links and quiz are objects, truthy whenever present. -/
def mkStep (step : OutlineStep) : Step :=
  let newStep : Step :=
    { stepNumber := step.step
      title := step.title
      content := step.content
      completed := false }
  let newStep :=
    match step.funFact with
    | some f => if f ≠ "" then { newStep with funFact := some f } else newStep
    | none => newStep
  let newStep :=
    match step.externalLinks with
    | some l => { newStep with externalLinks := some l }
    | none => newStep
  match step.quiz with
  | some q => { newStep with quiz := some q }
  | none => newStep

/-- `result.course.map(step => ...)`: the whole outline-to-steps transformation. -/
def buildSteps (course : List OutlineStep) : List Step :=
  course.map mkStep

/-- The `try` body of `handleGenerateCourse`, starting after generation state
was set to `generating`: run the action, transform the result, reject an
empty step list, persist the new course (`addCourse`, whose outcome is the
`persist` parameter, yielding the new id), then insert the course at the
front, select it, and mark generation `done`. -/
def handleGenerateCourseTry (s1 : Model) (topic : String) (depth : Nat)
    (uid : String) (now : String)
    (gw : Except Thrown GenerateFullCourseOutput)
    (persist : Except Thrown String) : Except Thrown Model :=
  match generateCourseAction gw with
  | .error e => .error e
  | .ok result =>
      let steps := buildSteps result.course
      if steps.isEmpty then .error (.err aiFailedMsg)
      else
        let newCourseData : String → Course := fun newCourseId =>
          { id := newCourseId
            topic := topic
            depth := depth
            outline := result.course.map (fun s => (s.step, s.title, s.description))
            steps := steps
            createdAt := now
            userId := uid }
        match persist with
        | .error e => .error e
        | .ok newCourseId =>
            let newCourse := newCourseData newCourseId
            .ok { s1 with
                    courses := newCourse :: s1.courses
                    activeCourseId := some newCourse.id
                    generationState := ⟨.done⟩ }

/-- `handleGenerateCourse`: refuse without a mounted component and a user;
otherwise set state to `generating`, run the `try` body, and on any caught
error log it, toast its message (or the generic fallback for a non-`Error`)
and reset the state to `idle`. -/
def handleGenerateCourse (env : PageEnv) (s : Model) (topic : String)
    (depth : Nat) (now : String)
    (gw : Except Thrown GenerateFullCourseOutput)
    (persist : Except Thrown String) : Model :=
  match env.user with
  | none =>
      pushToast ⟨"Authentication Error", "You must be logged in to create a course."⟩ s
  | some uid =>
      if !env.mounted then
        pushToast ⟨"Authentication Error", "You must be logged in to create a course."⟩ s
      else
        let s1 := { s with generationState := ⟨.generating⟩ }
        match handleGenerateCourseTry s1 topic depth uid now gw persist with
        | .ok s2 => s2
        | .error e =>
            { pushToast ⟨"Error Generating Course", describeThrown e⟩
                (pushLog "console.error(error)" s1) with
              generationState := ⟨.idle⟩ }

/-- `Partial<Step>`: each field is either absent from the patch or carries
the value the spread `{ ...step, ...newStepData }` will install. -/
structure StepPatch where
  stepNumber : Option Nat := none
  title : Option String := none
  content : Option String := none
  completed : Option Bool := none
  funFact : Option (Option String) := none
  externalLinks : Option (Option (List String)) := none
  quiz : Option (Option (List String)) := none
deriving Repr, DecidableEq

/-- `{ ...step, ...newStepData }`: fields present in the patch override. -/
def mergeStep (step : Step) (p : StepPatch) : Step :=
  { stepNumber := p.stepNumber.getD step.stepNumber
    title := p.title.getD step.title
    content := p.content.getD step.content
    completed := p.completed.getD step.completed
    funFact := p.funFact.getD step.funFact
    externalLinks := p.externalLinks.getD step.externalLinks
    quiz := p.quiz.getD step.quiz }

/-- `handleUpdateStep`: no-op when unmounted or the course is absent;
otherwise merge the patch into the matching step, replace the course in the
collection optimistically, then persist; if persistence fails, log, toast a
sync error and map the course back to its pre-update snapshot. -/
def handleUpdateStep (env : PageEnv) (s : Model) (courseId : String)
    (stepNumber : Nat) (newStepData : StepPatch)
    (persist : Except Thrown Unit) : Model :=
  if !env.mounted then s
  else
    match s.courses.find? (fun c => c.id == courseId) with
    | none => s
    | some courseToUpdate =>
        let updatedSteps := courseToUpdate.steps.map (fun step =>
          if step.stepNumber == stepNumber then mergeStep step newStepData else step)
        let updatedCourse := { courseToUpdate with steps := updatedSteps }
        let s1 :=
          { s with courses := s.courses.map (fun c => if c.id == courseId then updatedCourse else c) }
        match persist with
        | .ok _ => s1
        | .error _ =>
            let s2 := pushToast ⟨"Sync Error", "Failed to save changes."⟩
              (pushLog "Error updating step in DB:" s1)
            { s2 with courses := s2.courses.map (fun c => if c.id == courseId then courseToUpdate else c) }

/-- `handleAskQuestion` returns an answer, the next model, and whether a
network call was made. -/
structure AskResult where
  output : AskStepQuestionOutput
  model : Model
  networkCalled : Bool
deriving Repr, DecidableEq

/-- `handleAskQuestion`: before mount, a fixed placeholder with no network
call; otherwise delegate through `askQuestionAction`, and on any failure log,
toast and return a fixed fallback answer — the caller always receives an
answer value. -/
def handleAskQuestion (env : PageEnv) (s : Model) (course : Course)
    (step : Step) (question : String)
    (gw : Except Thrown AskStepQuestionOutput) : AskResult :=
  if !env.mounted then
    ⟨⟨"Please wait for the page to fully load."⟩, s, false⟩
  else
    let _input := (course.topic, step.title,
      if step.content == "" then "" else step.content, question)
    match askQuestionAction gw with
    | .ok r => ⟨r, s, true⟩
    | .error _ =>
        ⟨⟨"Sorry, I couldn't process your question. Please try again."⟩,
          pushToast
            ⟨"Error Getting Answer",
             "Could not get an answer for this question. Please try again."⟩
            (pushLog "console.error(error)" s), true⟩

/-- The optimistic half of `handleDeleteCourse`: drop the course from the
collection and clear the active selection when it pointed at that course —
this happens before the remote delete resolves. -/
def deleteOptimistic (s : Model) (courseId : String) : Model :=
  { s with
      courses := s.courses.filter (fun c => !(c.id == courseId))
      activeCourseId :=
        if s.activeCourseId == some courseId then none else s.activeCourseId }

/-- `handleDeleteCourse`: no-op when unmounted; otherwise snapshot the
collection, apply the optimistic removal, then delete remotely; on failure
log, toast and restore the full snapshot (the active selection is not
restored). -/
def handleDeleteCourse (env : PageEnv) (s : Model) (courseId : String)
    (persist : Except Thrown Unit) : Model :=
  if !env.mounted then s
  else
    let originalCourses := s.courses
    let s1 := deleteOptimistic s courseId
    match persist with
    | .ok _ => s1
    | .error _ =>
        let s2 := pushToast
          ⟨"Deletion Failed", "Could not delete course from database."⟩
          (pushLog "Error deleting course from DB:" s1)
        { s2 with courses := originalCourses }

/-! ## Concrete fixtures used by witnesses and counterexamples -/

/-- A mounted, authenticated environment. -/
def envOK : PageEnv := ⟨true, some "u"⟩

/-- An environment whose component has not yet mounted. -/
def envNoMount : PageEnv := ⟨false, some "u"⟩

/-- A plain outline entry carrying a given step number. -/
def sampleOutline (n : Nat) : OutlineStep :=
  { step := n, title := "s", description := "d", content := "c" }

/-- A first sample step. -/
def step1 : Step := { stepNumber := 1, title := "Intro", content := "b1", completed := false }

/-- A second sample step. -/
def step2 : Step := { stepNumber := 2, title := "More", content := "b2", completed := false }

/-- A sample stored course with id "a". -/
def courseA : Course :=
  { id := "a", topic := "T", depth := 15, outline := [], steps := [step1, step2],
    createdAt := "t0", userId := "u" }

/-- A sample stored course with id "b". -/
def courseB : Course :=
  { id := "b", topic := "S", depth := 30, outline := [], steps := [step1],
    createdAt := "t0", userId := "u" }

/-- A sample model holding the two courses, course "a" active. -/
def m0 : Model :=
  { courses := [courseA, courseB], activeCourseId := some "a",
    generationState := ⟨.idle⟩, toasts := [], logs := [] }

/-- The sample model with an empty collection. -/
def mEmpty : Model :=
  { courses := [], activeCourseId := none,
    generationState := ⟨.idle⟩, toasts := [], logs := [] }

/-- A patch that marks a step completed. -/
def patchDone : StepPatch := { completed := some true }

/-! ## Helper lemmas -/

/-- Closed form of the per-entry transformation: mandatory fields are copied,
`completed` is set to `false`, links and quiz are copied exactly when present,
and the fun fact is copied exactly when present and non-empty (the page's
JavaScript truthiness check drops an empty string). -/
theorem mkStep_fields (o : OutlineStep) :
    mkStep o =
      { stepNumber := o.step, title := o.title, content := o.content,
        completed := false,
        funFact := if o.funFact = some "" then none else o.funFact,
        externalLinks := o.externalLinks, quiz := o.quiz } := by
  rcases o with ⟨n, t, d, c, ff, el, q⟩
  rcases ff with _ | f
  · rcases el with _ | l <;> rcases q with _ | qq <;> rfl
  · by_cases hf : f = ""
    · subst hf
      rcases el with _ | l <;> rcases q with _ | qq <;> rfl
    · rcases el with _ | l <;> rcases q with _ | qq <;>
        simp [mkStep, hf]

/-! ## The claims -/

/-- C6 (corrected): counterexample to the claim as stated — an outline step
whose fun fact is present but equal to the empty string has its fun fact
present in the gateway's output step yet absent from the constructed `Step`
(the page guards the copy with JavaScript truthiness, and an empty string is
falsy). -/
theorem C6_funFact_iff_cex :
    (OutlineStep.funFact
        { step := 1, title := "t", description := "d", content := "c",
          funFact := some "" }).isSome = true
    ∧ (mkStep
        { step := 1, title := "t", description := "d", content := "c",
          funFact := some "" }).funFact = none := by
  exact ⟨rfl, rfl⟩

/-- C6 (amended): for every gateway output step, the external links and quiz
are present in the constructed `Step` exactly when present in the source and
are copied unchanged; the fun fact is present exactly when present *and
non-empty* in the source and is then copied unchanged; absent optional
fields stay absent (never defaulted to a placeholder). -/
theorem C6_optional_fields_truthy (o : OutlineStep) :
    (mkStep o).externalLinks = o.externalLinks
    ∧ (mkStep o).quiz = o.quiz
    ∧ (mkStep o).funFact = (if o.funFact = some "" then none else o.funFact)
    ∧ (o.funFact = none → (mkStep o).funFact = none) := by
  rw [mkStep_fields]
  refine ⟨rfl, rfl, rfl, ?_⟩
  intro h
  simp [h]

/-- C6 witness: the amended statement evaluated on a concrete outline step
with a non-empty fun fact, and on one with no fun fact at all. -/
theorem C6_optional_fields_truthy_witness :
    (mkStep { step := 1, title := "t", description := "d", content := "c",
              funFact := some "ff" }).funFact = some "ff"
    ∧ (mkStep { step := 2, title := "t", description := "d",
                content := "c" }).funFact = none := by
  have h := C6_optional_fields_truthy
    { step := 1, title := "t", description := "d", content := "c",
      funFact := some "ff" }
  have h2 := C6_optional_fields_truthy
    { step := 2, title := "t", description := "d", content := "c" }
  exact ⟨by rw [h.2.2.1]; rfl, h2.2.2.2 rfl⟩

/-- C8 (confirmed): the active course is exactly the lookup of the active
identifier in the current collection; a `null` identifier yields no active
course, and so does any identifier that no course in the collection carries
— the lookup is total, never an error. -/
theorem C8_activeCourse_pure_lookup (courses : List Course)
    (activeCourseId : Option String) :
    activeCourse courses activeCourseId
        = courses.find? (fun c => some c.id == activeCourseId)
    ∧ activeCourse courses none = none
    ∧ (∀ cid : String, (∀ c ∈ courses, c.id ≠ cid) →
        activeCourse courses (some cid) = none) := by
  refine ⟨rfl, ?_, ?_⟩
  · apply List.find?_eq_none.mpr
    intro c _
    simp [activeCourse]
  · intro cid h
    apply List.find?_eq_none.mpr
    intro c hc
    simpa using h c hc

/-- C8 witness: looking up an identifier absent from the concrete sample
collection yields no active course. -/
theorem C8_activeCourse_pure_lookup_witness :
    activeCourse [courseA, courseB] (some "zzz") = none := by
  exact (C8_activeCourse_pure_lookup [courseA, courseB] (some "zzz")).2.2 "zzz"
    (by decide)

/-- C9 (confirmed): when the collection fetch fails, the collection, active
selection and generation state keep exactly their prior values, a
user-visible toast is surfaced, and the error is logged — the failure is
absorbed locally (the handler is a total function returning a model). -/
theorem C9_fetch_failure_absorbed (env : PageEnv) (s : Model) (e : Thrown)
    (hu : env.user.isSome = true) (hm : env.mounted = true) :
    (fetchCourses env s (.error e)).courses = s.courses
    ∧ (fetchCourses env s (.error e)).activeCourseId = s.activeCourseId
    ∧ (fetchCourses env s (.error e)).generationState = s.generationState
    ∧ (fetchCourses env s (.error e)).toasts
        = ⟨"Error", "Failed to load courses. Please refresh the page."⟩ :: s.toasts
    ∧ (fetchCourses env s (.error e)).logs = "Error fetching courses:" :: s.logs := by
  simp [fetchCourses, hu, hm, pushToast, pushLog]

/-- C9 witness: a failing fetch on the concrete sample model keeps its
collection and pushes the load-failure toast. -/
theorem C9_fetch_failure_absorbed_witness :
    (fetchCourses envOK m0 (.error (.err "boom"))).courses = m0.courses
    ∧ (fetchCourses envOK m0 (.error (.err "boom"))).toasts
        = [⟨"Error", "Failed to load courses. Please refresh the page."⟩] := by
  have h := C9_fetch_failure_absorbed envOK m0 (.err "boom") rfl rfl
  exact ⟨h.1, h.2.2.2.1⟩

/-- Shape of the accepted generation path: with a mounted, authenticated
environment, a non-empty gateway result and a successful persistence call,
the handler inserts the course assembled around the id returned by
persistence at the front of the collection, selects it, and marks generation
done. -/
theorem handleGenerateCourse_ok (env : PageEnv) (s : Model) (topic : String)
    (depth : Nat) (now uid newId : String) (r : GenerateFullCourseOutput)
    (hm : env.mounted = true) (hu : env.user = some uid) (hne : r.course ≠ []) :
    handleGenerateCourse env s topic depth now (.ok r) (.ok newId) =
      { s with
          courses :=
            { id := newId, topic := topic, depth := depth,
              outline := r.course.map (fun o => (o.step, o.title, o.description)),
              steps := buildSteps r.course, createdAt := now,
              userId := uid } :: s.courses
          activeCourseId := some newId
          generationState := ⟨.done⟩ } := by
  cases hc : r.course with
  | nil => exact absurd hc hne
  | cons a l =>
      simp [handleGenerateCourse, hu, hm, handleGenerateCourseTry,
        generateCourseAction, generateCourseActionTry, hc, buildSteps]

/-- Shape of the generation path when persistence rejects: the state is
reset to idle, nothing is inserted, and the thrown error's description is
toasted. -/
theorem handleGenerateCourse_persist_fail (env : PageEnv) (s : Model)
    (topic : String) (depth : Nat) (now uid : String)
    (r : GenerateFullCourseOutput) (e : Thrown)
    (hm : env.mounted = true) (hu : env.user = some uid) (hne : r.course ≠ []) :
    handleGenerateCourse env s topic depth now (.ok r) (.error e) =
      { s with
          generationState := ⟨.idle⟩
          toasts := ⟨"Error Generating Course", describeThrown e⟩ :: s.toasts
          logs := "console.error(error)" :: s.logs } := by
  cases hc : r.course with
  | nil => exact absurd hc hne
  | cons a l =>
      simp [handleGenerateCourse, hu, hm, handleGenerateCourseTry,
        generateCourseAction, generateCourseActionTry, hc, buildSteps,
        pushToast, pushLog]

/-- The step numbers of the transformed sequence are exactly the gateway
entries' numbers, in the same order. -/
theorem buildSteps_stepNumbers (l : List OutlineStep) :
    (buildSteps l).map Step.stepNumber = l.map OutlineStep.step := by
  induction l with
  | nil => rfl
  | cons a t ih =>
      simp only [buildSteps, List.map_cons] at ih ⊢
      rw [ih, mkStep_fields]

/-- C3 (amended): for every successful generation the inserted course's
step sequence has the length of the gateway's outline, every step has
`completed = false`, and the step numbers are exactly the gateway entries'
numbers in input order — hence they form a strictly increasing sequence
whenever the gateway's numbers do (the page copies the numbers; it does not
enforce the increase itself). -/
theorem C3_generation_steps_shape (env : PageEnv) (s : Model) (topic : String)
    (depth : Nat) (now uid newId : String) (r : GenerateFullCourseOutput)
    (hm : env.mounted = true) (hu : env.user = some uid) (hne : r.course ≠ []) :
    ∃ nc : Course,
      (handleGenerateCourse env s topic depth now (.ok r) (.ok newId)).courses
          = nc :: s.courses
      ∧ nc.steps.length = r.course.length
      ∧ (∀ st ∈ nc.steps, st.completed = false)
      ∧ nc.steps.map Step.stepNumber = r.course.map OutlineStep.step
      ∧ (List.Chain' (· < ·) (r.course.map OutlineStep.step) →
          List.Chain' (· < ·) (nc.steps.map Step.stepNumber)) := by
  refine ⟨_, by rw [handleGenerateCourse_ok env s topic depth now uid newId r hm hu hne], ?_, ?_, ?_, ?_⟩
  · simp [buildSteps]
  · intro st hst
    rcases List.mem_map.mp hst with ⟨o, _, rfl⟩
    rw [mkStep_fields]
  · exact buildSteps_stepNumbers r.course
  · intro h
    rw [buildSteps_stepNumbers]
    exact h

/-- C3 witness: the amended statement evaluated at a concrete two-entry
gateway result whose numbers are 1 and 2. -/
theorem C3_generation_steps_shape_witness :
    ∃ nc : Course,
      (handleGenerateCourse envOK mEmpty "X" 15 "t1"
          (.ok ⟨[sampleOutline 1, sampleOutline 2]⟩) (.ok "new")).courses = [nc]
      ∧ nc.steps.map Step.stepNumber = [1, 2] := by
  rcases C3_generation_steps_shape envOK mEmpty "X" 15 "t1" "u" "new"
      ⟨[sampleOutline 1, sampleOutline 2]⟩ rfl rfl (by decide) with
    ⟨nc, hcs, _, _, hnums, _⟩
  exact ⟨nc, hcs, by rw [hnums]; rfl⟩

/-- C3 counterexample: the claim as stated fails — when the gateway returns
entries numbered 5 then 3, generation succeeds and the inserted course's
step numbers are [5, 3], which is not strictly increasing. -/
theorem C3_strictly_increasing_cex :
    ((handleGenerateCourse envOK mEmpty "X" 15 "t1"
        (.ok ⟨[sampleOutline 5, sampleOutline 3]⟩) (.ok "new")).courses.map
          (fun c => c.steps.map Step.stepNumber)) = [[5, 3]]
    ∧ ¬ List.Chain' (· < ·) [5, 3] := by
  refine ⟨rfl, fun h => ?_⟩
  exact absurd (List.chain'_cons.mp h).1 (by decide)

/-- C4 (code bug evidence): at the failing input — the gateway call succeeds
but carries zero steps — generation fails with GenerationState back at idle,
no course is inserted, and the toast carries the fixed user-facing message
`aiUnableMsg`; but a transport failure surfaces the very same message,
because the zero-steps error thrown inside `generateCourseAction`'s own try
block is caught by its own catch and replaced, so the dedicated zero-steps
message `aiFailedMsg` (present twice in the code) can never reach the user
and the surfaced message is not distinct from a transport error's. -/
theorem C4_zero_steps_not_distinct :
    (handleGenerateCourse envOK m0 "X" 15 "t1" (.ok ⟨[]⟩) (.ok "new")).generationState
        = ⟨.idle⟩
    ∧ (handleGenerateCourse envOK m0 "X" 15 "t1" (.ok ⟨[]⟩) (.ok "new")).courses
        = m0.courses
    ∧ (handleGenerateCourse envOK m0 "X" 15 "t1" (.ok ⟨[]⟩) (.ok "new")).toasts
        = [⟨"Error Generating Course", aiUnableMsg⟩]
    ∧ (handleGenerateCourse envOK m0 "X" 15 "t1"
          (.error (.err "network request failed")) (.ok "new")).toasts
        = [⟨"Error Generating Course", aiUnableMsg⟩]
    ∧ aiUnableMsg ≠ aiFailedMsg := by
  refine ⟨rfl, rfl, rfl, rfl, ?_⟩
  decide

/-- C5 (confirmed): on an accepted generation the course assembled around
the id handed back by the persistence call (so persistence happens first) is
inserted at index 0, made the active selection, and the state is set to
done; when the persistence call in this path fails the state is reset to
idle and the thrown error's own message is surfaced when it has one, else
the generic message; a generation-gateway failure likewise resets to idle
with the action's message surfaced. -/
theorem C5_generation_accept_path (env : PageEnv) (s : Model) (topic : String)
    (depth : Nat) (now uid newId : String) (r : GenerateFullCourseOutput)
    (hm : env.mounted = true) (hu : env.user = some uid) (hne : r.course ≠ []) :
    (∃ nc : Course, nc.id = newId
      ∧ handleGenerateCourse env s topic depth now (.ok r) (.ok newId)
          = { s with courses := nc :: s.courses
                     activeCourseId := some newId
                     generationState := ⟨.done⟩ })
    ∧ (∀ e : Thrown,
        (handleGenerateCourse env s topic depth now (.ok r) (.error e)).generationState
            = ⟨.idle⟩
        ∧ (handleGenerateCourse env s topic depth now (.ok r) (.error e)).courses
            = s.courses
        ∧ (handleGenerateCourse env s topic depth now (.ok r) (.error e)).toasts
            = ⟨"Error Generating Course", describeThrown e⟩ :: s.toasts)
    ∧ (∀ msg : String, describeThrown (.err msg) = msg)
    ∧ describeThrown .nonError = "An unknown error occurred."
    ∧ (∀ e : Thrown, ∀ persist : Except Thrown String,
        (handleGenerateCourse env s topic depth now (.error e) persist).generationState
            = ⟨.idle⟩
        ∧ (handleGenerateCourse env s topic depth now (.error e) persist).courses
            = s.courses
        ∧ (handleGenerateCourse env s topic depth now (.error e) persist).toasts
            = ⟨"Error Generating Course", aiUnableMsg⟩ :: s.toasts) := by
  refine ⟨⟨_, rfl, handleGenerateCourse_ok env s topic depth now uid newId r hm hu hne⟩,
    ?_, fun _ => rfl, rfl, ?_⟩
  · intro e
    rw [handleGenerateCourse_persist_fail env s topic depth now uid r e hm hu hne]
    exact ⟨rfl, rfl, rfl⟩
  · intro e persist
    refine ?_
    simp [handleGenerateCourse, hu, hm, handleGenerateCourseTry,
      generateCourseAction, generateCourseActionTry, pushToast, pushLog,
      describeThrown]

/-- C5 witness: the accepted path evaluated at a concrete one-entry result,
and the persistence-failure path at a concrete thrown error. -/
theorem C5_generation_accept_path_witness :
    (∃ nc : Course, nc.id = "new"
      ∧ handleGenerateCourse envOK mEmpty "X" 15 "t1"
            (.ok ⟨[sampleOutline 1]⟩) (.ok "new")
          = { mEmpty with courses := [nc]
                          activeCourseId := some "new"
                          generationState := ⟨.done⟩ })
    ∧ (handleGenerateCourse envOK mEmpty "X" 15 "t1"
          (.ok ⟨[sampleOutline 1]⟩) (.error (.err "db down"))).toasts
        = [⟨"Error Generating Course", "db down"⟩] := by
  have h := C5_generation_accept_path envOK mEmpty "X" 15 "t1" "u" "new"
    ⟨[sampleOutline 1]⟩ rfl rfl (by decide)
  exact ⟨h.1, (h.2.1 (.err "db down")).2.2⟩

/-- C2 (confirmed): deletion removes the course from the collection and, when
it was the active selection, clears the selection — this is the optimistic
state the handler reaches whatever the remote outcome (on success it is the
final state); when the remote delete fails, the entire pre-deletion
collection, order included, is restored and the user is notified. -/
theorem C2_delete_optimistic_rollback (env : PageEnv) (s : Model)
    (courseId : String) (hm : env.mounted = true) :
    (deleteOptimistic s courseId).courses
        = s.courses.filter (fun c => !(c.id == courseId))
    ∧ (∀ c ∈ (deleteOptimistic s courseId).courses, c.id ≠ courseId)
    ∧ (s.activeCourseId = some courseId →
        (deleteOptimistic s courseId).activeCourseId = none)
    ∧ handleDeleteCourse env s courseId (.ok ()) = deleteOptimistic s courseId
    ∧ (∀ e : Thrown,
        (handleDeleteCourse env s courseId (.error e)).courses = s.courses
        ∧ (handleDeleteCourse env s courseId (.error e)).toasts
            = ⟨"Deletion Failed", "Could not delete course from database."⟩
                :: s.toasts) := by
  refine ⟨rfl, ?_, ?_, ?_, ?_⟩
  · intro c hc
    simp only [deleteOptimistic] at hc
    have h := (List.mem_filter.mp hc).2
    simpa using h
  · intro h
    simp [deleteOptimistic, h]
  · simp [handleDeleteCourse, hm]
  · intro e
    exact ⟨by simp [handleDeleteCourse, deleteOptimistic, hm, pushToast, pushLog],
           by simp [handleDeleteCourse, deleteOptimistic, hm, pushToast, pushLog]⟩

/-- C2 witness: deleting the active course "a" from the concrete sample
model and having the remote call reject restores both courses in their
original order. -/
theorem C2_delete_optimistic_rollback_witness :
    (deleteOptimistic m0 "a").activeCourseId = none
    ∧ (handleDeleteCourse envOK m0 "a" (.error (.err "boom"))).courses
        = [courseA, courseB] := by
  have h := C2_delete_optimistic_rollback envOK m0 "a" rfl
  exact ⟨h.2.2.1 rfl, (h.2.2.2.2 (.err "boom")).1⟩

/-- C10 (confirmed): when deletion of the currently active course fails
remotely, the rollback restores the collection to its pre-deletion snapshot
but the active selection stays cleared — it does not return to the course
whose deletion failed. -/
theorem C10_delete_rollback_keeps_selection_cleared (env : PageEnv) (s : Model)
    (courseId : String) (e : Thrown)
    (hm : env.mounted = true) (ha : s.activeCourseId = some courseId) :
    (handleDeleteCourse env s courseId (.error e)).courses = s.courses
    ∧ (handleDeleteCourse env s courseId (.error e)).activeCourseId = none := by
  constructor <;> simp [handleDeleteCourse, deleteOptimistic, hm, ha,
    pushToast, pushLog]

/-- C10 witness: a failing deletion of the active course "a" in the concrete
sample model restores the collection yet leaves no active selection. -/
theorem C10_delete_rollback_keeps_selection_cleared_witness :
    (handleDeleteCourse envOK m0 "a" (.error .nonError)).courses = m0.courses
    ∧ (handleDeleteCourse envOK m0 "a" (.error .nonError)).activeCourseId
        = none := by
  exact C10_delete_rollback_keeps_selection_cleared envOK m0 "a" .nonError rfl rfl

/-- C7 (confirmed): question answering is total at this layer — before the
component mounts it returns the fixed placeholder with no network call and
an untouched model; once mounted, a gateway failure (an `Error` or any other
thrown value) yields the fixed fallback answer plus a toast, and a gateway
success propagates the gateway's answer; every case returns an answer value. -/
theorem C7_ask_question_absorbed (env : PageEnv) (s : Model) (c : Course)
    (st : Step) (q : String) :
    (env.mounted = false → ∀ gw, handleAskQuestion env s c st q gw
        = ⟨⟨"Please wait for the page to fully load."⟩, s, false⟩)
    ∧ (env.mounted = true → ∀ e : Thrown,
        (handleAskQuestion env s c st q (.error e)).output
            = ⟨"Sorry, I couldn't process your question. Please try again."⟩
        ∧ (handleAskQuestion env s c st q (.error e)).model.toasts
            = ⟨"Error Getting Answer",
               "Could not get an answer for this question. Please try again."⟩
                :: s.toasts)
    ∧ (env.mounted = true → ∀ r, handleAskQuestion env s c st q (.ok r)
        = ⟨r, s, true⟩) := by
  refine ⟨?_, ?_, ?_⟩
  · intro h gw
    simp [handleAskQuestion, h]
  · intro h e
    cases e <;>
      exact ⟨by simp [handleAskQuestion, askQuestionAction, h, pushToast, pushLog],
             by simp [handleAskQuestion, askQuestionAction, h, pushToast, pushLog]⟩
  · intro h r
    simp [handleAskQuestion, askQuestionAction, h]

/-- C7 witness: before mounting, asking returns the placeholder answer, an
unchanged model and no network call, even when the gateway would fail. -/
theorem C7_ask_question_absorbed_witness :
    handleAskQuestion envNoMount m0 courseA step1 "why" (.error (.err "x"))
      = ⟨⟨"Please wait for the page to fully load."⟩, m0, false⟩ := by
  exact (C7_ask_question_absorbed envNoMount m0 courseA step1 "why").1 rfl
    (.error (.err "x"))

/-- C1 (confirmed): for a step update on a collection with duplicate-free
course ids, if persistence succeeds the final collection is the original
with the located course's matching step merged with the partial update (all
other steps and courses unchanged); if persistence fails the final model is
exactly the pre-update model plus the sync-failure toast and its log entry —
in particular the collection is deeply equal to its pre-update snapshot. -/
theorem C1_update_step_optimistic (env : PageEnv) (s : Model)
    (courseId : String) (stepNumber : Nat) (patch : StepPatch) (c0 : Course)
    (hm : env.mounted = true)
    (hfind : s.courses.find? (fun c => c.id == courseId) = some c0)
    (hnodup : (s.courses.map Course.id).Nodup) :
    (handleUpdateStep env s courseId stepNumber patch (.ok ())).courses
        = s.courses.map (fun c =>
            if c.id == courseId then
              { c0 with steps := c0.steps.map (fun st =>
                  if st.stepNumber == stepNumber then mergeStep st patch else st) }
            else c)
    ∧ (∀ e : Thrown,
        handleUpdateStep env s courseId stepNumber patch (.error e)
          = pushToast ⟨"Sync Error", "Failed to save changes."⟩
              (pushLog "Error updating step in DB:" s)) := by
  have hc0mem : c0 ∈ s.courses := List.mem_of_find?_eq_some hfind
  have hc0id : c0.id = courseId := by
    have h := List.find?_some hfind
    simpa using h
  constructor
  · simp [handleUpdateStep, hm, hfind]
  · intro e
    simp only [handleUpdateStep, hm, Bool.not_true, Bool.false_eq_true,
      if_false, hfind, pushToast, pushLog]
    have hrevert :
        (s.courses.map (fun c =>
            if c.id == courseId then
              { c0 with steps := c0.steps.map (fun st =>
                  if st.stepNumber == stepNumber then mergeStep st patch else st) }
            else c)).map (fun c => if c.id == courseId then c0 else c)
          = s.courses := by
      rw [List.map_map]
      have key : ∀ c ∈ s.courses,
          ((fun c => if c.id == courseId then c0 else c) ∘ (fun c =>
            if c.id == courseId then
              { c0 with steps := c0.steps.map (fun st =>
                  if st.stepNumber == stepNumber then mergeStep st patch else st) }
            else c)) c = c := by
        intro c hc
        by_cases hcid : c.id = courseId
        · have hc0c : c0 = c :=
            List.inj_on_of_nodup_map hnodup hc0mem hc (by rw [hc0id, hcid])
          simp [Function.comp, hcid, hc0id, hc0c]
        · simp [Function.comp, hcid]
      rw [List.map_congr_left key]
      simp
    simp only [Model.mk.injEq]
    refine ⟨hrevert, ?_, ?_, ?_, ?_⟩ <;> trivial

/-- C1 witness: updating step 2 of course "a" in the concrete sample model —
a failing persistence call leaves the collection deeply equal to its
pre-update value, and a succeeding one installs the merged course. -/
theorem C1_update_step_optimistic_witness :
    (handleUpdateStep envOK m0 "a" 2 patchDone (.error (.err "boom"))).courses
        = m0.courses
    ∧ (handleUpdateStep envOK m0 "a" 2 patchDone (.ok ())).courses
        = m0.courses.map (fun c =>
            if c.id == "a" then
              { courseA with steps := courseA.steps.map (fun st =>
                  if st.stepNumber == 2 then mergeStep st patchDone else st) }
            else c) := by
  have h := C1_update_step_optimistic envOK m0 "a" 2 patchDone courseA rfl
    (by decide) (by decide)
  exact ⟨by rw [h.2 (.err "boom")]; rfl, h.1⟩
